import Mathlib

set_option autoImplicit false

namespace Testperanto

/-! Shallow embedding of `src/testperanto/morphology.py` and the
`stream_ngrams` function of `src/testperanto/corpora.py`.

Python dicts are modelled as association lists, Python exceptions as the
`Except` monad, and Python `None` as `Option.none`. -/

/-- A Python dict mapping syntactic property names (strings) to property
values (strings): the `properties : dict` argument of every `morph` method in
`morphology.py`.  Modelled as an association list; `List.lookup` returns what
`properties[p]` returns when the key is present. -/
abbrev Bundle : Type := List (String × String)

/-- A Python dict key as it appears in a `KeyError` raised inside `morph`:
either a property-name string (from the subscript `properties[p]`) or a tuple
of property values (from the subscript `suffix_map[value]` or
`prefix_map[value]`). -/
inductive PyKey : Type
  | str (s : String)
  | tup (vs : List String)
deriving DecidableEq, Repr

/-- A failure escaping a `morph` call: the name of the Python exception class
that was raised, together with the offending dict key carried by the
exception.  Both dict subscripts in `morphology.py` raise `KeyError`
(a subclass of `LookupError`) on a missing key. -/
structure MorphError : Type where
  excClass : String
  key : PyKey
deriving DecidableEq, Repr

/-- Evaluation of the list comprehension
`tuple([properties[p] for p in self.property_names])` shared by
`SuffixMorpher.morph` (line 92) and `PrefixMorpher.morph` (line 127): the
property values are read left to right and the first absent name raises
`KeyError(name)`. -/
def projectProps (properties : Bundle) : List String → Except MorphError (List String)
  | [] => .ok []
  | n :: rest =>
    match properties.lookup n with
    | none => .error ⟨"KeyError", .str n⟩
    | some v =>
      match projectProps properties rest with
      | .error e => .error e
      | .ok vs => .ok (v :: vs)

/-- `SuffixMorpher` (morphology.py lines 34-94): an ordered tuple of property
names together with a suffix map from value tuples to suffix strings, both
fixed at construction. -/
structure SuffixMorpher : Type where
  property_names : List String
  suffix_map : List (List String × String)

/-- `SuffixMorpher.morph` (lines 77-94): project the bundle onto
`property_names`, look the value tuple up in `suffix_map`
(`KeyError(value)` when absent), and return `word + suffix`. -/
def SuffixMorpher.morph (m : SuffixMorpher) (word : String) (properties : Bundle) :
    Except MorphError String :=
  match projectProps properties m.property_names with
  | .error e => .error e
  | .ok value =>
    match m.suffix_map.lookup value with
    | none => .error ⟨"KeyError", .tup value⟩
    | some suffix => .ok (word ++ suffix)

/-- `PrefixMorpher` (morphology.py lines 96-129): an ordered tuple of property
names together with a prefix map from value tuples to prefix strings. -/
structure PrefixMorpher : Type where
  property_names : List String
  prefix_map : List (List String × String)

/-- `PrefixMorpher.morph` (lines 112-129): like `SuffixMorpher.morph` but
returns `prefix + word`. -/
def PrefixMorpher.morph (m : PrefixMorpher) (word : String) (properties : Bundle) :
    Except MorphError String :=
  match projectProps properties m.property_names with
  | .error e => .error e
  | .ok value =>
    match m.prefix_map.lookup value with
    | none => .error ⟨"KeyError", .tup value⟩
    | some pref => .ok (pref ++ word)

namespace Morpher

/-- The body of the abstract base class method `Morpher.morph`
(morphology.py lines 17-31) is a docstring and nothing else, so a call
returns Python `None`; `Option String` models "a string or `None`". -/
def morph (word : String) (properties : Bundle) : Option String := none

/-- The methods of `Morpher` decorated with `@abstractmethod`: the decorator
is imported (line 6) but never applied, so the set is empty. -/
def abstract_methods : List String := []

/-- Python's `ABCMeta` refuses instantiation exactly when some abstract
method remains unimplemented, so `Morpher(ABC)` with no `@abstractmethod`
members is instantiable. -/
def instantiable : Bool := abstract_methods.isEmpty

end Morpher

namespace EnglishVerbMorpher

/-- `EnglishVerbMorpher.__init__` (morphology.py lines 139-155):
the tense/agreement suffix table. -/
def base_morpher : SuffixMorpher :=
  { property_names := ["PERSON", "COUNT", "TENSE", "POLARITY"],
    suffix_map :=
      [(["1", "sng", "present", "pos"], ""),
       (["1", "plu", "present", "pos"], ""),
       (["1", "sng", "perfect", "pos"], "d"),
       (["1", "plu", "perfect", "pos"], "d"),
       (["3", "sng", "present", "pos"], "s"),
       (["3", "plu", "present", "pos"], ""),
       (["3", "sng", "perfect", "pos"], "d"),
       (["3", "plu", "perfect", "pos"], "d"),
       (["1", "sng", "present", "neg"], ""),
       (["1", "plu", "present", "neg"], ""),
       (["1", "sng", "perfect", "neg"], ""),
       (["1", "plu", "perfect", "neg"], ""),
       (["3", "sng", "present", "neg"], ""),
       (["3", "plu", "present", "neg"], ""),
       (["3", "sng", "perfect", "neg"], ""),
       (["3", "plu", "perfect", "neg"], "")] }

/-- `EnglishVerbMorpher.__init__` (lines 156-172): the negation prefix
table. -/
def negation_morpher : PrefixMorpher :=
  { property_names := ["PERSON", "COUNT", "TENSE", "POLARITY"],
    prefix_map :=
      [(["1", "sng", "present", "pos"], ""),
       (["1", "plu", "present", "pos"], ""),
       (["1", "sng", "perfect", "pos"], ""),
       (["1", "plu", "perfect", "pos"], ""),
       (["3", "sng", "present", "pos"], ""),
       (["3", "plu", "present", "pos"], ""),
       (["3", "sng", "perfect", "pos"], ""),
       (["3", "plu", "perfect", "pos"], ""),
       (["1", "sng", "present", "neg"], "do not "),
       (["1", "plu", "present", "neg"], "do not "),
       (["1", "sng", "perfect", "neg"], "did not "),
       (["1", "plu", "perfect", "neg"], "did not "),
       (["3", "sng", "present", "neg"], "does not "),
       (["3", "plu", "present", "neg"], "do not "),
       (["3", "sng", "perfect", "neg"], "did not "),
       (["3", "plu", "perfect", "neg"], "did not ")] }

/-- `EnglishVerbMorpher.morph` (lines 174-177): suffix the stem with
`base_morpher`, then prepend the negation with `negation_morpher`; an
exception from the first call propagates before the second runs. -/
def morph (word : String) (properties : Bundle) : Except MorphError String :=
  match base_morpher.morph word properties with
  | .error e => .error e
  | .ok suffixed => negation_morpher.morph suffixed properties

end EnglishVerbMorpher

namespace EnglishNounMorpher

/-- `EnglishNounMorpher.__init__` (morphology.py lines 181-183). -/
def base_morpher : SuffixMorpher :=
  { property_names := ["COUNT"],
    suffix_map := [(["sng"], ""), (["plu"], "s")] }

/-- `EnglishNounMorpher.morph` (lines 185-186). -/
def morph (word : String) (properties : Bundle) : Except MorphError String :=
  base_morpher.morph word properties

end EnglishNounMorpher

namespace JapaneseVerbMorpher

/-- `JapaneseVerbMorpher.__init__` (morphology.py lines 190-199). -/
def base_morpher : SuffixMorpher :=
  { property_names := ["PERSON", "COUNT", "TENSE"],
    suffix_map :=
      [(["1", "sng", "present"], "masu"),
       (["1", "plu", "present"], "masu"),
       (["1", "sng", "perfect"], "mashita"),
       (["1", "plu", "perfect"], "mashita"),
       (["3", "sng", "present"], "masu"),
       (["3", "plu", "present"], "masu"),
       (["3", "sng", "perfect"], "mashita"),
       (["3", "plu", "perfect"], "mashita")] }

/-- `JapaneseVerbMorpher.morph` (lines 201-202). -/
def morph (word : String) (properties : Bundle) : Except MorphError String :=
  base_morpher.morph word properties

end JapaneseVerbMorpher

/-- The whitespace characters recognised by Python's `str.split()` and
stripped by `float(str)`, restricted to ASCII. -/
def pyIsSpace (c : Char) : Bool :=
  c = ' ' || c = '\t' || c = '\n' || c = '\x0b' || c = '\x0c' || c = '\r'

/-- Continuation of a PEP-515 digit run after an initial digit: further
digits, with single underscores allowed only between two digits. -/
def drAfterDigit : List Char → Bool
  | [] => true
  | '_' :: rest =>
    match rest with
    | [] => false
    | c :: r => c.isDigit && drAfterDigit r
  | c :: rest => c.isDigit && drAfterDigit rest

/-- A nonempty digit run as accepted inside a Python float literal:
`digit (["_"] digit)*`. -/
def digitRun : List Char → Bool
  | [] => false
  | c :: rest => c.isDigit && drAfterDigit rest

/-- Splits a character list at the first character satisfying `p`, dropping
that character; `none` when no character satisfies `p`. -/
def splitFirst (p : Char → Bool) : List Char → Option (List Char × List Char)
  | [] => none
  | c :: rest =>
    if p c then some ([], rest)
    else
      match splitFirst p rest with
      | none => none
      | some (a, b) => some (c :: a, b)

/-- The mantissa of a Python float literal: `digitpart ["." [digitpart]]` or
`"." digitpart`, so at least one digit and at most one dot. -/
def mantissaOK (cs : List Char) : Bool :=
  match splitFirst (· = '.') cs with
  | none => digitRun cs
  | some (intPart, fracPart) =>
    fracPart.all (· ≠ '.') &&
    (intPart.isEmpty || digitRun intPart) &&
    (fracPart.isEmpty || digitRun fracPart) &&
    !(intPart.isEmpty && fracPart.isEmpty)

/-- The exponent of a Python float literal after the `e`/`E`: an optional
sign followed by a nonempty digit run. -/
def expOK (cs : List Char) : Bool :=
  match cs with
  | '+' :: rest => digitRun rest
  | '-' :: rest => digitRun rest
  | _ => digitRun cs

/-- A signless numeric Python float literal: mantissa with an optional
`e`/`E` exponent. -/
def numericOK (cs : List Char) : Bool :=
  match splitFirst (fun c => c = 'e' || c = 'E') cs with
  | none => mantissaOK cs
  | some (mant, ex) => mantissaOK mant && expOK ex

/-- Acceptance of the CPython builtin `float(str)` applied by `is_number`
inside `stream_ngrams` (corpora.py lines 11-16): surrounding whitespace is
stripped, an optional sign is read, and the rest must be `inf`, `infinity`
or `nan` (case-insensitive) or a numeric literal with optional fraction and
exponent and PEP-515 underscores.  Restricted to ASCII digits and whitespace
(Python additionally accepts their non-ASCII Unicode counterparts). -/
def pyFloatAccepts (s : String) : Bool :=
  let stripped := ((s.data.dropWhile pyIsSpace).reverse.dropWhile pyIsSpace).reverse
  let cs :=
    match stripped with
    | '+' :: rest => rest
    | '-' :: rest => rest
    | other => other
  let low := cs.map Char.toLower
  low == "inf".data || low == "infinity".data || low == "nan".data || numericOK cs

/-- The local function `is_number` of `stream_ngrams` (corpora.py lines
11-16): `True` exactly when `float(s)` succeeds. -/
def is_number (s : String) : Bool := pyFloatAccepts s

/-- The local function `replace_numbers` of `stream_ngrams` (corpora.py
lines 18-22). -/
def replace_numbers (word : String) : String :=
  if is_number word then "*NUM*" else word

/-- Accumulating worker for `pySplit`: `acc` holds the characters of the
current word in reverse. -/
def pySplitAux : List Char → List Char → List String
  | [], acc => if acc.isEmpty then [] else [String.mk acc.reverse]
  | c :: rest, acc =>
    if pyIsSpace c then
      if acc.isEmpty then pySplitAux rest []
      else String.mk acc.reverse :: pySplitAux rest []
    else pySplitAux rest (c :: acc)

/-- The default tokenizer of `stream_ngrams` (corpora.py line 10):
`line.split()` with no arguments, which splits on whitespace runs and yields
no empty tokens. -/
def pySplit (s : String) : List String :=
  pySplitAux s.data []

/-- `stream_ngrams` (corpora.py lines 10-29), with the generator's yields
collected into a list.  Python's `range(0, len(words) - ngram_order + 1)`
over ints produces `max(0, len(words) - ngram_order + 1)` indices, which is
the natural number `words.length + 1 - ngram_order`; the slice
`words[i:i+ngram_order]` is `(words.drop i).take ngram_order`. -/
def stream_ngrams (lines : List String) (ngram_order : Nat)
    (tokenize : String → List String) : List String :=
  lines.flatMap fun line =>
    let iwords := tokenize line
    let words := iwords.map replace_numbers
    (List.range (words.length + 1 - ngram_order)).map fun i =>
      String.intercalate " " ((words.drop i).take ngram_order)

/-- Specification-side sliding window: the consecutive `n`-element windows
of a list, in order, and nothing when fewer than `n` elements remain. -/
def windows {α : Type} (n : Nat) : List α → List (List α)
  | [] => if 0 < n then [] else [[]]
  | y :: tail =>
    if (y :: tail).length < n then []
    else (y :: tail).take n :: windows n tail

/-- The worked `SuffixMorpher` of the class docstring (morphology.py lines
43-49): German adjective endings keyed on gender and case. -/
def germanAdjMorpher : SuffixMorpher :=
  { property_names := ["GENDER", "CASE"],
    suffix_map :=
      [(["m", "acc"], "en"),
       (["f", "acc"], "e"),
       (["n", "acc"], "es"),
       (["m", "dat"], "em"),
       (["f", "dat"], "er"),
       (["n", "dat"], "em")] }

example :
    EnglishVerbMorpher.morph "walk"
      [("PERSON", "3"), ("COUNT", "sng"), ("TENSE", "present"), ("POLARITY", "pos")] =
    .ok "walks" := rfl

example :
    EnglishVerbMorpher.morph "walk"
      [("PERSON", "1"), ("COUNT", "sng"), ("TENSE", "present"), ("POLARITY", "neg")] =
    .ok "do not walk" := rfl



example : is_number "3.14" = true := rfl
example : is_number "-1_0.5e+2" = true := rfl
example : is_number "Inf" = true := rfl
example : is_number " 42\t" = true := rfl
example : is_number "*NUM*" = false := rfl
example : is_number "." = false := rfl
example : is_number "1e" = false := rfl
example : is_number "1__0" = false := rfl
example : is_number "walk" = false := rfl
example : pySplit "the cat  sat 3.14 " = ["the", "cat", "sat", "3.14"] := by decide
example :
    stream_ngrams ["the cat sat 3.14"] 2 pySplit =
      ["the cat", "cat sat", "sat *NUM*"] := by decide
example : stream_ngrams ["a b"] 3 pySplit = [] := by decide
example : windows 2 ["a", "b", "c"] = [["a", "b"], ["b", "c"]] := rfl

/-! Helper lemmas shared by the claim theorems. -/

theorem projectProps_error_of_missing (p : Bundle) :
    ∀ names : List String, (∃ n ∈ names, p.lookup n = none) →
      ∃ n ∈ names, p.lookup n = none ∧
        projectProps p names = .error ⟨"KeyError", .str n⟩ := by
  intro names
  induction names with
  | nil => rintro ⟨n, hn, -⟩; exact absurd hn (List.not_mem_nil n)
  | cons m rest ih =>
    rintro ⟨n, hn, hnone⟩
    cases hl : p.lookup m with
    | none =>
      exact ⟨m, List.mem_cons_self m rest, hl, by simp [projectProps, hl]⟩
    | some v =>
      have hnr : n ∈ rest := by
        rcases List.mem_cons.mp hn with rfl | h
        · rw [hl] at hnone; cases hnone
        · exact h
      obtain ⟨n', hn', hnone', heq⟩ := ih ⟨n, hnr, hnone⟩
      exact ⟨n', List.mem_cons_of_mem m hn', hnone',
        by simp [projectProps, hl, heq]⟩

theorem projectProps_error_elim (p : Bundle) :
    ∀ (names : List String) (e : MorphError), projectProps p names = .error e →
      ∃ n ∈ names, p.lookup n = none ∧ e = ⟨"KeyError", .str n⟩ := by
  intro names
  induction names with
  | nil => intro e he; simp [projectProps] at he
  | cons m rest ih =>
    intro e he
    simp only [projectProps] at he
    cases hl : p.lookup m with
    | none =>
      rw [hl] at he
      simp only [Except.error.injEq] at he
      exact ⟨m, List.mem_cons_self m rest, hl, he.symm⟩
    | some v =>
      rw [hl] at he
      cases hr : projectProps p rest with
      | error e' =>
        rw [hr] at he
        simp only [Except.error.injEq] at he
        obtain ⟨n, hn, hnone, he'⟩ := ih e' hr
        exact ⟨n, List.mem_cons_of_mem m hn, hnone, he ▸ he'⟩
      | ok vs => rw [hr] at he; simp at he

theorem projectProps_congr (p₁ p₂ : Bundle) :
    ∀ names : List String, (∀ n ∈ names, p₁.lookup n = p₂.lookup n) →
      projectProps p₁ names = projectProps p₂ names := by
  intro names
  induction names with
  | nil => intro _; rfl
  | cons m rest ih =>
    intro h
    have hm := h m (List.mem_cons_self m rest)
    have hr := ih fun n hn => h n (List.mem_cons_of_mem m hn)
    simp only [projectProps, hm, hr]

theorem projectProps_english_verb (p : Bundle)
    (person count tense polarity : String)
    (hp : p.lookup "PERSON" = some person) (hc : p.lookup "COUNT" = some count)
    (ht : p.lookup "TENSE" = some tense) (hpol : p.lookup "POLARITY" = some polarity) :
    projectProps p ["PERSON", "COUNT", "TENSE", "POLARITY"] =
      .ok [person, count, tense, polarity] := by
  simp [projectProps, hp, hc, ht, hpol]

theorem englishVerb_morph_of_lookups (stem : String) (p : Bundle)
    (vs : List String) (suffix pref : String)
    (hproj : projectProps p ["PERSON", "COUNT", "TENSE", "POLARITY"] = .ok vs)
    (hs : EnglishVerbMorpher.base_morpher.suffix_map.lookup vs = some suffix)
    (hpm : EnglishVerbMorpher.negation_morpher.prefix_map.lookup vs = some pref) :
    EnglishVerbMorpher.morph stem p = .ok (pref ++ (stem ++ suffix)) := by
  have hn1 : EnglishVerbMorpher.base_morpher.property_names =
      ["PERSON", "COUNT", "TENSE", "POLARITY"] := rfl
  have hn2 : EnglishVerbMorpher.negation_morpher.property_names =
      ["PERSON", "COUNT", "TENSE", "POLARITY"] := rfl
  simp only [EnglishVerbMorpher.morph, SuffixMorpher.morph, PrefixMorpher.morph,
    hn1, hn2, hproj, hs, hpm]

/-! Claim theorems. -/

/-- C1: the English verb catalog morpher sends stem "walk" to "walks" for
{PERSON:3, COUNT:sng, TENSE:present, POLARITY:pos}, to "do not walk" for
{PERSON:1, COUNT:sng, TENSE:present, POLARITY:neg}, to "does not walk" for
{PERSON:3, COUNT:sng, TENSE:present, POLARITY:neg}, and to "did not walk"
for {PERSON:1, COUNT:plu, TENSE:perfect, POLARITY:neg}. -/
theorem english_verb_walk_forms :
    EnglishVerbMorpher.morph "walk"
      [("PERSON", "3"), ("COUNT", "sng"), ("TENSE", "present"), ("POLARITY", "pos")] =
      .ok "walks" ∧
    EnglishVerbMorpher.morph "walk"
      [("PERSON", "1"), ("COUNT", "sng"), ("TENSE", "present"), ("POLARITY", "neg")] =
      .ok "do not walk" ∧
    EnglishVerbMorpher.morph "walk"
      [("PERSON", "3"), ("COUNT", "sng"), ("TENSE", "present"), ("POLARITY", "neg")] =
      .ok "does not walk" ∧
    EnglishVerbMorpher.morph "walk"
      [("PERSON", "1"), ("COUNT", "plu"), ("TENSE", "perfect"), ("POLARITY", "neg")] =
      .ok "did not walk" :=
  ⟨rfl, rfl, rfl, rfl⟩

/-- C2: for every affix morpher, a property bundle missing a required name,
or a projected value tuple absent from the rule table, makes `morph` fail
with a `KeyError` (a `LookupError` subclass); it returns no default or
best-effort result. -/
theorem affix_morpher_fails_on_missing_or_unknown :
    (∀ (m : SuffixMorpher) (stem : String) (p : Bundle),
        (∃ n ∈ m.property_names, p.lookup n = none) →
        ∃ e, m.morph stem p = .error e ∧ e.excClass = "KeyError") ∧
    (∀ (m : SuffixMorpher) (stem : String) (p : Bundle) (vs : List String),
        projectProps p m.property_names = .ok vs →
        m.suffix_map.lookup vs = none →
        m.morph stem p = .error ⟨"KeyError", .tup vs⟩) ∧
    (∀ (m : PrefixMorpher) (stem : String) (p : Bundle),
        (∃ n ∈ m.property_names, p.lookup n = none) →
        ∃ e, m.morph stem p = .error e ∧ e.excClass = "KeyError") ∧
    (∀ (m : PrefixMorpher) (stem : String) (p : Bundle) (vs : List String),
        projectProps p m.property_names = .ok vs →
        m.prefix_map.lookup vs = none →
        m.morph stem p = .error ⟨"KeyError", .tup vs⟩) := by
  refine ⟨?_, ?_, ?_, ?_⟩
  · intro m stem p h
    obtain ⟨n, _, _, heq⟩ := projectProps_error_of_missing p m.property_names h
    exact ⟨⟨"KeyError", .str n⟩, by simp [SuffixMorpher.morph, heq], rfl⟩
  · intro m stem p vs hproj hnone
    simp [SuffixMorpher.morph, hproj, hnone]
  · intro m stem p h
    obtain ⟨n, _, _, heq⟩ := projectProps_error_of_missing p m.property_names h
    exact ⟨⟨"KeyError", .str n⟩, by simp [PrefixMorpher.morph, heq], rfl⟩
  · intro m stem p vs hproj hnone
    simp [PrefixMorpher.morph, hproj, hnone]

/-- Witness for C2: the German adjective morpher of the docstring fails on
an empty bundle and on the uncovered tuple ("m", "nom"). -/
theorem affix_morpher_fails_witness :
    (∃ e, germanAdjMorpher.morph "rot" [] = .error e ∧ e.excClass = "KeyError") ∧
    germanAdjMorpher.morph "rot" [("GENDER", "m"), ("CASE", "nom")] =
      .error ⟨"KeyError", .tup ["m", "nom"]⟩ :=
  ⟨affix_morpher_fails_on_missing_or_unknown.1 germanAdjMorpher "rot" []
      ⟨"GENDER", List.mem_cons_self _ _, rfl⟩,
    affix_morpher_fails_on_missing_or_unknown.2.1 germanAdjMorpher "rot"
      [("GENDER", "m"), ("CASE", "nom")] ["m", "nom"] rfl rfl⟩

/-- C3: `EnglishVerbMorpher.morph` applies the tense/agreement suffix
morpher first and the negation prefix morpher second, handing the same
unmodified bundle to both; a suffix-stage failure propagates unchanged. -/
theorem english_verb_suffix_then_negation :
    (∀ (w : String) (p : Bundle) (s : String),
        EnglishVerbMorpher.base_morpher.morph w p = .ok s →
        EnglishVerbMorpher.morph w p = EnglishVerbMorpher.negation_morpher.morph s p) ∧
    (∀ (w : String) (p : Bundle) (e : MorphError),
        EnglishVerbMorpher.base_morpher.morph w p = .error e →
        EnglishVerbMorpher.morph w p = .error e) := by
  constructor
  · intro w p s h
    simp only [EnglishVerbMorpher.morph, h]
  · intro w p e h
    simp only [EnglishVerbMorpher.morph, h]

/-- Witness for C3: with the bundle {PERSON:3, COUNT:sng, TENSE:present,
POLARITY:pos}, suffixing "walk" gives "walks" and the composite equals the
negation morpher applied to "walks". -/
theorem english_verb_suffix_then_negation_witness :
    EnglishVerbMorpher.morph "walk"
      [("PERSON", "3"), ("COUNT", "sng"), ("TENSE", "present"), ("POLARITY", "pos")] =
    EnglishVerbMorpher.negation_morpher.morph "walks"
      [("PERSON", "3"), ("COUNT", "sng"), ("TENSE", "present"), ("POLARITY", "pos")] :=
  english_verb_suffix_then_negation.1 "walk"
    [("PERSON", "3"), ("COUNT", "sng"), ("TENSE", "present"), ("POLARITY", "pos")]
    "walks" rfl

/-- C4: a successful suffix-mode morph starts with the stem and is at least
as long as the stem; a successful prefix-mode morph ends with the stem. -/
theorem affix_morpher_preserves_stem :
    (∀ (m : SuffixMorpher) (stem : String) (p : Bundle) (r : String),
        m.morph stem p = .ok r →
        ∃ affix, r = stem ++ affix ∧ stem.length ≤ r.length) ∧
    (∀ (m : PrefixMorpher) (stem : String) (p : Bundle) (r : String),
        m.morph stem p = .ok r → ∃ a, r = a ++ stem) := by
  constructor
  · intro m stem p r h
    cases hproj : projectProps p m.property_names with
    | error e => simp [SuffixMorpher.morph, hproj] at h
    | ok vs =>
      cases hl : m.suffix_map.lookup vs with
      | none => simp [SuffixMorpher.morph, hproj, hl] at h
      | some suffix =>
        simp only [SuffixMorpher.morph, hproj, hl, Except.ok.injEq] at h
        refine ⟨suffix, h.symm, ?_⟩
        rw [← h, String.length_append]
        exact Nat.le_add_right _ _
  · intro m stem p r h
    cases hproj : projectProps p m.property_names with
    | error e => simp [PrefixMorpher.morph, hproj] at h
    | ok vs =>
      cases hl : m.prefix_map.lookup vs with
      | none => simp [PrefixMorpher.morph, hproj, hl] at h
      | some pref =>
        simp only [PrefixMorpher.morph, hproj, hl, Except.ok.injEq] at h
        exact ⟨pref, h.symm⟩

/-- Witness for C4: the German adjective morpher applied to "rot" with
{GENDER:n, CASE:acc} yields "rotes", which extends the stem "rot". -/
theorem affix_morpher_preserves_stem_witness :
    ∃ affix, "rotes" = "rot" ++ affix ∧ String.length "rot" ≤ String.length "rotes" :=
  affix_morpher_preserves_stem.1 germanAdjMorpher "rot"
    [("GENDER", "n"), ("CASE", "acc")] "rotes" rfl

/-- C10: the abstract base class `Morpher` has no `@abstractmethod` member,
so `ABCMeta` lets it be instantiated, and its `morph` body is only a
docstring, so every call returns Python `None` instead of a string. -/
theorem morpher_base_instantiable_and_returns_none :
    Morpher.instantiable = true ∧
    ∀ (w : String) (p : Bundle), Morpher.morph w p = none :=
  ⟨rfl, fun _ _ => rfl⟩

/-- Counterexample to C8: a missing required property and an uncovered value
tuple raise exceptions of the same class (`KeyError` both times), not two
distinct error kinds. -/
theorem missing_and_unknown_share_error_class :
    ∃ e₁ e₂ : MorphError,
      germanAdjMorpher.morph "rot" [("CASE", "acc")] = .error e₁ ∧
      germanAdjMorpher.morph "rot" [("GENDER", "m"), ("CASE", "nom")] = .error e₂ ∧
      e₁.excClass = e₂.excClass :=
  ⟨⟨"KeyError", .str "GENDER"⟩, ⟨"KeyError", .tup ["m", "nom"]⟩, rfl, rfl, rfl⟩

/-- C8 amended: both failure cases surface as the same exception class
`KeyError`; the caller can separate them only by the offending key carried
in the exception, a property-name string for a missing property versus a
value tuple for an uncovered rule. -/
theorem morph_error_key_classification :
    (∀ (m : SuffixMorpher) (stem : String) (p : Bundle) (e : MorphError),
        m.morph stem p = .error e →
        e.excClass = "KeyError" ∧
          ((∃ n ∈ m.property_names, e.key = .str n ∧ p.lookup n = none) ∨
           (∃ vs, e.key = .tup vs ∧ m.suffix_map.lookup vs = none))) ∧
    (∀ (m : PrefixMorpher) (stem : String) (p : Bundle) (e : MorphError),
        m.morph stem p = .error e →
        e.excClass = "KeyError" ∧
          ((∃ n ∈ m.property_names, e.key = .str n ∧ p.lookup n = none) ∨
           (∃ vs, e.key = .tup vs ∧ m.prefix_map.lookup vs = none))) := by
  constructor
  · intro m stem p e h
    cases hproj : projectProps p m.property_names with
    | error e' =>
      simp only [SuffixMorpher.morph, hproj, Except.error.injEq] at h
      obtain ⟨n, hn, hnone, he⟩ := projectProps_error_elim p m.property_names e' hproj
      subst h
      subst he
      exact ⟨rfl, .inl ⟨n, hn, rfl, hnone⟩⟩
    | ok vs =>
      cases hl : m.suffix_map.lookup vs with
      | none =>
        simp only [SuffixMorpher.morph, hproj, hl, Except.error.injEq] at h
        subst h
        exact ⟨rfl, .inr ⟨vs, rfl, hl⟩⟩
      | some suffix => simp [SuffixMorpher.morph, hproj, hl] at h
  · intro m stem p e h
    cases hproj : projectProps p m.property_names with
    | error e' =>
      simp only [PrefixMorpher.morph, hproj, Except.error.injEq] at h
      obtain ⟨n, hn, hnone, he⟩ := projectProps_error_elim p m.property_names e' hproj
      subst h
      subst he
      exact ⟨rfl, .inl ⟨n, hn, rfl, hnone⟩⟩
    | ok vs =>
      cases hl : m.prefix_map.lookup vs with
      | none =>
        simp only [PrefixMorpher.morph, hproj, hl, Except.error.injEq] at h
        subst h
        exact ⟨rfl, .inr ⟨vs, rfl, hl⟩⟩
      | some pref => simp [PrefixMorpher.morph, hproj, hl] at h

/-- Witness for the amended C8: classifying the concrete failure of the
German adjective morpher on a bundle without GENDER. -/
theorem morph_error_key_classification_witness :
    MorphError.excClass ⟨"KeyError", .str "GENDER"⟩ = "KeyError" ∧
      ((∃ n ∈ germanAdjMorpher.property_names,
          MorphError.key ⟨"KeyError", .str "GENDER"⟩ = .str n ∧
          ([("CASE", "acc")] : Bundle).lookup n = none) ∨
       (∃ vs, MorphError.key ⟨"KeyError", .str "GENDER"⟩ = .tup vs ∧
          germanAdjMorpher.suffix_map.lookup vs = none)) :=
  morph_error_key_classification.1 germanAdjMorpher "rot" [("CASE", "acc")]
    ⟨"KeyError", .str "GENDER"⟩ rfl

/-- C5: the English noun catalog morpher returns the bare stem for COUNT sng
and the stem plus "s" for COUNT plu, and the Japanese verb catalog morpher
returns the stem plus "masu" for TENSE present and the stem plus "mashita"
for TENSE perfect, for every PERSON in {1,3} and COUNT in {sng,plu}. -/
theorem english_noun_and_japanese_verb_forms :
    (∀ stem : String,
        EnglishNounMorpher.morph stem [("COUNT", "sng")] = .ok stem ∧
        EnglishNounMorpher.morph stem [("COUNT", "plu")] = .ok (stem ++ "s")) ∧
    (∀ stem person count : String,
        person = "1" ∨ person = "3" → count = "sng" ∨ count = "plu" →
        JapaneseVerbMorpher.morph stem
            [("PERSON", person), ("COUNT", count), ("TENSE", "present")] =
          .ok (stem ++ "masu") ∧
        JapaneseVerbMorpher.morph stem
            [("PERSON", person), ("COUNT", count), ("TENSE", "perfect")] =
          .ok (stem ++ "mashita")) := by
  constructor
  · intro stem
    constructor
    · have h : EnglishNounMorpher.morph stem [("COUNT", "sng")] = .ok (stem ++ "") := rfl
      rw [h, String.append_empty]
    · rfl
  · intro stem person count h1 h2
    rcases h1 with rfl | rfl <;> rcases h2 with rfl | rfl <;> exact ⟨rfl, rfl⟩

/-- Witness for C5: "cat" / "cats" and "tabemashita" on concrete bundles. -/
theorem english_noun_and_japanese_verb_forms_witness :
    (EnglishNounMorpher.morph "cat" [("COUNT", "sng")] = .ok "cat" ∧
     EnglishNounMorpher.morph "cat" [("COUNT", "plu")] = .ok ("cat" ++ "s")) ∧
    (JapaneseVerbMorpher.morph "tabe"
        [("PERSON", "3"), ("COUNT", "sng"), ("TENSE", "present")] =
      .ok ("tabe" ++ "masu") ∧
     JapaneseVerbMorpher.morph "tabe"
        [("PERSON", "3"), ("COUNT", "sng"), ("TENSE", "perfect")] =
      .ok ("tabe" ++ "mashita")) :=
  ⟨english_noun_and_japanese_verb_forms.1 "cat",
   english_noun_and_japanese_verb_forms.2 "tabe" "3" "sng" (Or.inr rfl) (Or.inl rfl)⟩

/-- C6: whenever the bundle binds PERSON to a value in {1,3}, COUNT in
{sng,plu}, TENSE in {present,perfect} and POLARITY in {pos,neg}, both rule
tables of the English verb morpher cover the projected tuple, so `morph`
succeeds: the lookup-error branch is unreachable on this domain. -/
theorem english_verb_total_on_domain (stem : String) (p : Bundle)
    (person count tense polarity : String)
    (hp : p.lookup "PERSON" = some person) (hc : p.lookup "COUNT" = some count)
    (ht : p.lookup "TENSE" = some tense) (hpol : p.lookup "POLARITY" = some polarity)
    (h1 : person = "1" ∨ person = "3") (h2 : count = "sng" ∨ count = "plu")
    (h3 : tense = "present" ∨ tense = "perfect")
    (h4 : polarity = "pos" ∨ polarity = "neg") :
    ∃ r, EnglishVerbMorpher.morph stem p = .ok r := by
  have hproj := projectProps_english_verb p person count tense polarity hp hc ht hpol
  rcases h1 with rfl | rfl <;> rcases h2 with rfl | rfl <;>
    rcases h3 with rfl | rfl <;> rcases h4 with rfl | rfl <;>
    exact ⟨_, englishVerb_morph_of_lookups stem p _ _ _ hproj rfl rfl⟩

/-- Witness for C6: the English verb morpher succeeds on a concrete bundle
from the 16-tuple domain. -/
theorem english_verb_total_on_domain_witness :
    ∃ r, EnglishVerbMorpher.morph "walk"
      [("PERSON", "3"), ("COUNT", "plu"), ("TENSE", "perfect"), ("POLARITY", "neg")] =
      .ok r :=
  english_verb_total_on_domain "walk"
    [("PERSON", "3"), ("COUNT", "plu"), ("TENSE", "perfect"), ("POLARITY", "neg")]
    "3" "plu" "perfect" "neg" rfl rfl rfl rfl
    (Or.inr rfl) (Or.inr rfl) (Or.inr rfl) (Or.inr rfl)

/-- C7: `morph` reads only the configured property names: bundles agreeing
on every configured name produce identical output, whatever else they
contain; with the purely functional embedding this also gives determinism
of repeated calls, and the morpher value itself is never changed. -/
theorem morph_reads_only_configured_names :
    (∀ (m : SuffixMorpher) (stem : String) (p₁ p₂ : Bundle),
        (∀ n ∈ m.property_names, p₁.lookup n = p₂.lookup n) →
        m.morph stem p₁ = m.morph stem p₂) ∧
    (∀ (m : PrefixMorpher) (stem : String) (p₁ p₂ : Bundle),
        (∀ n ∈ m.property_names, p₁.lookup n = p₂.lookup n) →
        m.morph stem p₁ = m.morph stem p₂) ∧
    (∀ (stem : String) (p₁ p₂ : Bundle),
        (∀ n ∈ (["PERSON", "COUNT", "TENSE", "POLARITY"] : List String),
            p₁.lookup n = p₂.lookup n) →
        EnglishVerbMorpher.morph stem p₁ = EnglishVerbMorpher.morph stem p₂) := by
  have hsuf : ∀ (m : SuffixMorpher) (stem : String) (p₁ p₂ : Bundle),
      (∀ n ∈ m.property_names, p₁.lookup n = p₂.lookup n) →
      m.morph stem p₁ = m.morph stem p₂ := by
    intro m stem p₁ p₂ h
    simp only [SuffixMorpher.morph, projectProps_congr p₁ p₂ m.property_names h]
  have hpre : ∀ (m : PrefixMorpher) (stem : String) (p₁ p₂ : Bundle),
      (∀ n ∈ m.property_names, p₁.lookup n = p₂.lookup n) →
      m.morph stem p₁ = m.morph stem p₂ := by
    intro m stem p₁ p₂ h
    simp only [PrefixMorpher.morph, projectProps_congr p₁ p₂ m.property_names h]
  refine ⟨hsuf, hpre, ?_⟩
  intro stem p₁ p₂ h
  have h1 := hsuf EnglishVerbMorpher.base_morpher stem p₁ p₂ h
  have h2 := fun s => hpre EnglishVerbMorpher.negation_morpher s p₁ p₂ h
  simp only [EnglishVerbMorpher.morph, h1]
  cases EnglishVerbMorpher.base_morpher.morph stem p₂ with
  | error e => rfl
  | ok s => exact h2 s

/-- Witness for C7: adding an unrelated GENDER entry to the bundle leaves
the English verb morpher's output unchanged. -/
theorem morph_reads_only_configured_names_witness :
    EnglishVerbMorpher.morph "walk"
      [("PERSON", "3"), ("COUNT", "sng"), ("TENSE", "present"), ("POLARITY", "pos")] =
    EnglishVerbMorpher.morph "walk"
      [("PERSON", "3"), ("COUNT", "sng"), ("TENSE", "present"), ("POLARITY", "pos"),
       ("GENDER", "f")] :=
  morph_reads_only_configured_names.2.2 "walk"
    [("PERSON", "3"), ("COUNT", "sng"), ("TENSE", "present"), ("POLARITY", "pos")]
    [("PERSON", "3"), ("COUNT", "sng"), ("TENSE", "present"), ("POLARITY", "pos"),
     ("GENDER", "f")]
    (by intro n hn; fin_cases hn <;> rfl)

/-- The n-gram windows computed by index arithmetic in `stream_ngrams` agree
with the structural sliding-window recursion `windows`. -/
theorem range_map_take_drop_eq_windows {α : Type} (n : Nat) (ws : List α) :
    (List.range (ws.length + 1 - n)).map (fun i => (ws.drop i).take n) =
      windows n ws := by
  induction ws with
  | nil => cases n with
    | zero => simp [windows]
    | succ k => simp [windows]
  | cons y t ih =>
    by_cases h : t.length + 1 < n
    · have h0 : t.length + 1 + 1 - n = 0 := by omega
      simp only [List.length_cons, h0, List.range_zero, List.map_nil, windows]
      rw [if_pos (by simpa using h)]
    · have h1 : t.length + 1 + 1 - n = (t.length + 1 - n) + 1 := by omega
      rw [List.length_cons, h1, List.range_succ_eq_map, List.map_cons, List.map_map]
      have hcomp : ((fun i => ((y :: t).drop i).take n) ∘ Nat.succ) =
          fun i => (t.drop i).take n := by
        funext i
        simp [List.drop_succ_cons]
      rw [hcomp, ih]
      simp only [windows, List.drop_zero]
      rw [if_neg (by simpa using h)]

/-- C9: `stream_ngrams` tokenizes each line, replaces every token accepted
by `float` with the sentinel "*NUM*", and yields in order the consecutive
`n`-token windows of the resulting token list joined by single spaces;
a line with fewer than `n` tokens contributes nothing. -/
theorem stream_ngrams_spec :
    (∀ (lines : List String) (n : Nat) (tokenize : String → List String),
        stream_ngrams lines n tokenize =
          lines.flatMap fun line =>
            (windows n ((tokenize line).map replace_numbers)).map
              (String.intercalate " ")) ∧
    (∀ (words : List String) (n : Nat), words.length < n → windows n words = []) ∧
    (∀ w : String, is_number w = true → replace_numbers w = "*NUM*") ∧
    (∀ w : String, is_number w = false → replace_numbers w = w) := by
  refine ⟨?_, ?_, ?_, ?_⟩
  · intro lines n tokenize
    simp only [stream_ngrams]
    congr 1
    funext line
    rw [← range_map_take_drop_eq_windows n ((tokenize line).map replace_numbers),
      List.map_map]
    rfl
  · intro words n h
    cases words with
    | nil =>
      simp only [List.length_nil] at h
      simp [windows, h]
    | cons y t =>
      simp only [windows]
      rw [if_pos h]
  · intro w h
    simp [replace_numbers, h]
  · intro w h
    simp [replace_numbers, h]

/-- Witness for C9: evaluating the window equality and the sentinel
replacement on a concrete line. -/
theorem stream_ngrams_spec_witness :
    stream_ngrams ["the cat sat 3.14"] 2 pySplit =
      (windows 2 ((pySplit "the cat sat 3.14").map replace_numbers)).map
        (String.intercalate " ") ∧
    windows 3 ["a", "b"] = ([] : List (List String)) ∧
    replace_numbers "3.14" = "*NUM*" := by
  refine ⟨?_, ?_, ?_⟩
  · have h := stream_ngrams_spec.1 ["the cat sat 3.14"] 2 pySplit
    simpa using h
  · exact stream_ngrams_spec.2.1 ["a", "b"] 3 (by decide)
  · exact stream_ngrams_spec.2.2.1 "3.14" rfl

end Testperanto
